import Mathlib

/-!
Verification development for the naabu SYN scanner (`pkg/scan/scan.go`).

The Go code is shallowly embedded: IPv4 addresses and ports are `Nat`,
strings stay `String`, the PRNG is an oracle stream of draws, machine
integers are `Nat` with an explicit `% 2^32` where the code truncates to
`uint32`, and fallible OS calls are oracles (`Bool` / `Option` / `Except`).
Each definition cites the lines of `scan.go` it embeds.
-/

/-- The layer kinds the decoding stack of `Scan` can report
(`scan.go` lines 168-176): `Ethernet → IPv4 → TCP` on interfaces with a
hardware address, `IPv4 → TCP` on TUN/TAP interfaces. -/
inductive LayerKind
  | ethernet
  | ipv4
  | tcp
deriving DecidableEq

/-- One captured frame after `parser.DecodeLayers` (`scan.go` lines 176-187):
the list of decoded layer types plus the fields of the shared `ip4` and `tcp`
structs that the acceptance rules read. The `rst` flag is carried because the
source's `layers.TCP` has it, although the code never reads it. -/
structure CapturedPacket where
  decoded : List LayerKind
  ipSrc : Nat
  ipDst : Nat
  tcpSrc : Nat
  tcpDst : Nat
  syn : Bool
  ack : Bool
  rst : Bool
deriving DecidableEq

/-- `ip4.NetworkFlow()` of a decoded packet: the (src, dst) IPv4 pair
(`scan.go` line 191). -/
def packetFlow (pk : CapturedPacket) : Nat × Nat := (pk.ipSrc, pk.ipDst)

/-- The `for _, layerType := range decoded` loop body of the capture
goroutine (`scan.go` lines 188-202), processing the decoded layer list of one
packet and returning the open-port events sent on `openChan`. A `continue`
in the source advances to the next decoded layer; since nothing follows the
switch statement inside the loop body, a failed IPv4 flow check behaves
exactly like a passed one. `ipFlow` is `gopacket.NewFlow(..., s.host, s.srcIP)`
from line 158, `rawPort` the ephemeral source port. -/
def processLayers (rawPort : Nat) (ipFlow : Nat × Nat) (pk : CapturedPacket) :
    List LayerKind → List Nat
  | [] => []
  | LayerKind.ethernet :: rest => processLayers rawPort ipFlow pk rest
  | LayerKind.ipv4 :: rest =>
      if packetFlow pk ≠ ipFlow then
        processLayers rawPort ipFlow pk rest
      else
        processLayers rawPort ipFlow pk rest
  | LayerKind.tcp :: rest =>
      if pk.tcpDst ≠ rawPort then
        processLayers rawPort ipFlow pk rest
      else if pk.syn && pk.ack then
        pk.tcpSrc :: processLayers rawPort ipFlow pk rest
      else
        processLayers rawPort ipFlow pk rest

/-- Events emitted for one captured packet (`scan.go` lines 185-202). -/
def processPacket (rawPort : Nat) (ipFlow : Nat × Nat) (pk : CapturedPacket) : List Nat :=
  processLayers rawPort ipFlow pk pk.decoded

/-- The ports the collector goroutine (`scan.go` lines 122-129) inserts into
`results`, for a given stream of captured packets, in capture order. The Go
collector stores them into a set; list membership below models set
membership. -/
def captureResults (rawPort : Nat) (ipFlow : Nat × Nat)
    (packets : List CapturedPacket) : List Nat :=
  packets.foldr (fun pk acc => processPacket rawPort ipFlow pk ++ acc) []

/-- The BPF program installed at `scan.go` line 103:
`tcp and port <rawPort> and ip host <host>`. `port` matches source or
destination TCP port, `ip host` matches source or destination address. -/
def bpfMatch (rawPort : Nat) (hostIP : Nat) (pk : CapturedPacket) : Bool :=
  pk.decoded.contains LayerKind.tcp
    && (pk.tcpSrc == rawPort || pk.tcpDst == rawPort)
    && (pk.ipSrc == hostIP || pk.ipDst == hostIP)

theorem captureResults_cons (rawPort : Nat) (ipFlow : Nat × Nat)
    (pk : CapturedPacket) (rest : List CapturedPacket) :
    captureResults rawPort ipFlow (pk :: rest)
      = processPacket rawPort ipFlow pk ++ captureResults rawPort ipFlow rest := rfl

theorem mem_processLayers (rawPort : Nat) (ipFlow : Nat × Nat) (pk : CapturedPacket) :
    ∀ (ls : List LayerKind) (x : Nat),
      x ∈ processLayers rawPort ipFlow pk ls → x = pk.tcpSrc := by
  intro ls
  induction ls with
  | nil => intro x hx; exact absurd hx (by simp [processLayers])
  | cons l rest ih =>
    intro x hx
    cases l with
    | ethernet => exact ih x hx
    | ipv4 =>
      simp only [processLayers, ite_self] at hx
      exact ih x hx
    | tcp =>
      simp only [processLayers] at hx
      split at hx
      · exact ih x hx
      · split at hx
        · rcases List.mem_cons.mp hx with h1 | h1
          · exact h1
          · exact ih x h1
        · exact ih x hx

theorem processLayers_ne_nil (rawPort : Nat) (ipFlow : Nat × Nat) (pk : CapturedPacket) :
    ∀ ls : List LayerKind,
      processLayers rawPort ipFlow pk ls ≠ [] → pk.tcpDst = rawPort := by
  intro ls
  induction ls with
  | nil => intro h; exact absurd rfl h
  | cons l rest ih =>
    intro h
    cases l with
    | ethernet => exact ih h
    | ipv4 =>
      simp only [processLayers, ite_self] at h
      exact ih h
    | tcp =>
      simp only [processLayers] at h
      by_cases hd : pk.tcpDst = rawPort
      · exact hd
      · rw [if_pos hd] at h
        exact ih h

/-- A captured SYN/ACK from the correct flow whose TCP source port (9999) is
not in the wordlist: an unsolicited or spoofed answer from the target host. -/
def synAckForeign : CapturedPacket :=
  ⟨[LayerKind.ipv4, LayerKind.tcp], 1, 2, 9999, 40000, true, true, false⟩

/-- A captured SYN/ACK from the wrong IPv4 flow: source is the target host
(1) but destination (9) is not the scanner's source IP (2). -/
def synAckWrongFlow : CapturedPacket :=
  ⟨[LayerKind.ipv4, LayerKind.tcp], 1, 9, 80, 40000, true, true, false⟩

/-- A genuine SYN/ACK reply to a probe of port 80. -/
def synAckGood : CapturedPacket :=
  ⟨[LayerKind.ipv4, LayerKind.tcp], 1, 2, 80, 40000, true, true, false⟩

/-- Claim C1, counterexample: with wordlist {80}, a captured SYN/ACK that
passes the BPF filter and all capture-side checks but carries TCP source
port 9999 makes the collector insert 9999, which is not in the wordlist.
The capture pipeline never compares `tcp.SrcPort` against the wordlist, so
`scan(W) ⊆ W` fails for arbitrary BPF-passing capture streams. -/
theorem C1_counterexample :
    bpfMatch 40000 1 synAckForeign = true
    ∧ captureResults 40000 (1, 2) [synAckForeign] = [9999]
    ∧ (9999 : Nat) ∉ [80] := by decide

/-- Claim C1, amended: every port the collector inserts is the TCP source
port of some captured packet; consequently the result set is a subset of the
wordlist whenever every captured packet's TCP source port lies in the
wordlist (as is the case for genuine replies to the emitted probes). -/
theorem C1_amended_subset (rawPort : Nat) (ipFlow : Nat × Nat) (W : List Nat) :
    ∀ packets : List CapturedPacket, (∀ pk ∈ packets, pk.tcpSrc ∈ W) →
      ∀ x ∈ captureResults rawPort ipFlow packets, x ∈ W := by
  intro packets
  induction packets with
  | nil => intro _ x hx; exact absurd hx (by simp [captureResults])
  | cons pk rest ih =>
    intro h x hx
    rw [captureResults_cons] at hx
    rcases List.mem_append.mp hx with h1 | h1
    · rw [mem_processLayers rawPort ipFlow pk pk.decoded x h1]
      exact h pk (List.mem_cons_self pk rest)
    · exact ih (fun q hq => h q (List.mem_cons_of_mem pk hq)) x h1

theorem C1_subset_witness : synAckGood.tcpSrc ∈ [80] :=
  C1_amended_subset 40000 (1, 2) [80] [synAckGood] (by decide)
    synAckGood.tcpSrc (by decide)

/-- Claim C2: refuted by the code as written. A captured packet whose IPv4
flow is (1, 9) — not the expected (target = 1, source = 2) — still produces
the open-port event 80, because the `continue` at `scan.go` line 192 only
skips to the next decoded layer type and the TCP case still runs. The flow
check never drops a packet: the claim (and the spec) state the intended
behavior, the code is a slip. -/
theorem C2_flow_check_noop :
    packetFlow synAckWrongFlow ≠ (1, 2)
    ∧ bpfMatch 40000 1 synAckWrongFlow = true
    ∧ processPacket 40000 (1, 2) synAckWrongFlow = [80] := by decide

/-- Claim C5: for a decoded packet (either decoder stack) that passes the
TCP destination-port check, the capture pipeline emits `tcp.SrcPort` exactly
when `SYN && ACK` holds; every other flag combination emits nothing
(`scan.go` lines 194-200). -/
theorem C5_emit_iff_synack (rawPort : Nat) (ipFlow : Nat × Nat) (pk : CapturedPacket)
    (hdec : pk.decoded = [LayerKind.ethernet, LayerKind.ipv4, LayerKind.tcp]
        ∨ pk.decoded = [LayerKind.ipv4, LayerKind.tcp])
    (hport : pk.tcpDst = rawPort) :
    processPacket rawPort ipFlow pk
      = (if pk.syn && pk.ack then [pk.tcpSrc] else []) := by
  rcases hdec with h | h <;>
    simp [processPacket, h, processLayers, hport]

theorem C5_synack_witness :
    processPacket 40000 (1, 2) synAckGood
      = (if synAckGood.syn && synAckGood.ack then [synAckGood.tcpSrc] else []) :=
  C5_emit_iff_synack 40000 (1, 2) synAckGood (Or.inr rfl) rfl

/-- The initial sequence seed `randSeq := 1000000000 + rand.Intn(8999999999)`
(`scan.go` line 144); `r0` is the PRNG draw, which satisfies
`r0 < 8999999999`. -/
def initialSeq (r0 : Nat) : Nat := 1000000000 + r0

/-- The retry loop `for i := 0; i < retries; i++` of the emitter goroutine
(`scan.go` lines 218-224): number of send attempts actually made, given the
per-attempt success oracle (`n > 0 && err == nil`). The loop breaks on the
first successful attempt. -/
def attemptsMade (sendOk : Nat → Bool) : Nat → Nat → Nat
  | _, 0 => 0
  | i, fuel + 1 => if sendOk i then 1 else 1 + attemptsMade sendOk (i + 1) fuel

/-- One serialized probe as written to the raw socket: TCP source port,
destination port and the 32-bit sequence field `tcp.Seq = uint32(randSeq)`
(`scan.go` lines 146-153 and 215-217). -/
structure Probe where
  srcPort : Nat
  dstPort : Nat
  seq32 : Nat
deriving DecidableEq

/-- The unbounded (Go `int`) value of `randSeq` after `n` per-port advances
`randSeq += 1 + rand.Intn(5)` (`scan.go` line 215); `draws n` is the n-th
`rand.Intn(5)` draw, so `draws n ≤ 4`. -/
def counterAfter (seed : Nat) (draws : Nat → Nat) : Nat → Nat
  | 0 => seed
  | i + 1 => counterAfter seed draws i + 1 + draws i

/-- The emitter goroutine body (`scan.go` lines 210-226) from a given
`randSeq` value and port index: for each port, advance the counter once,
then serialize and send the same packet up to `retries` times. Every attempt
writes the identical serialization, so attempts are modelled as replicated
probes. `uint32` truncation is `% 4294967296`. -/
def emitProbesFrom (rawPort retries : Nat) (draws : Nat → Nat)
    (sendOk : Nat → Nat → Bool) : Nat → Nat → List Nat → List Probe
  | _, _, [] => []
  | counter, idx, port :: rest =>
      List.replicate (attemptsMade (sendOk idx) 0 retries)
          ⟨rawPort, port, (counter + 1 + draws idx) % 4294967296⟩
        ++ emitProbesFrom rawPort retries draws sendOk
            (counter + 1 + draws idx) (idx + 1) rest

/-- All probes one scan emits over a wordlist iteration order
(`scan.go` lines 144, 210-231). -/
def emitProbes (rawPort retries r0 : Nat) (draws : Nat → Nat)
    (sendOk : Nat → Nat → Bool) (wordlist : List Nat) : List Probe :=
  emitProbesFrom rawPort retries draws sendOk (initialSeq r0) 0 wordlist

/-- The BPF filter string `fmt.Sprintf("tcp and port %d and ip host %s",
rawPort, s.host)` (`scan.go` line 103). -/
def bpfFilterStr (rawPort : Nat) (host : String) : String :=
  "tcp and port " ++ toString rawPort ++ " and ip host " ++ host

theorem attemptsMade_le (f : Nat → Bool) :
    ∀ fuel i : Nat, attemptsMade f i fuel ≤ fuel := by
  intro fuel
  induction fuel with
  | zero => intro i; simp [attemptsMade]
  | succ n ih =>
    intro i
    simp only [attemptsMade]
    split
    · omega
    · have := ih (i + 1)
      omega

theorem srcPort_emitProbesFrom (rawPort retries : Nat) (draws : Nat → Nat)
    (sendOk : Nat → Nat → Bool) :
    ∀ (wl : List Nat) (counter idx : Nat) (pr : Probe),
      pr ∈ emitProbesFrom rawPort retries draws sendOk counter idx wl →
      pr.srcPort = rawPort := by
  intro wl
  induction wl with
  | nil => intro counter idx pr h; exact absurd h (by simp [emitProbesFrom])
  | cons p rest ih =>
    intro counter idx pr h
    simp only [emitProbesFrom] at h
    rcases List.mem_append.mp h with h1 | h1
    · rw [List.eq_of_mem_replicate h1]
    · exact ih _ _ pr h1

theorem seq32_emitProbesFrom (rawPort retries seed : Nat) (draws : Nat → Nat)
    (sendOk : Nat → Nat → Bool) :
    ∀ (wl : List Nat) (idx : Nat) (pr : Probe),
      pr ∈ emitProbesFrom rawPort retries draws sendOk
            (counterAfter seed draws idx) idx wl →
      ∃ i, pr.seq32 = counterAfter seed draws (i + 1) % 4294967296 := by
  intro wl
  induction wl with
  | nil => intro idx pr h; exact absurd h (by simp [emitProbesFrom])
  | cons p rest ih =>
    intro idx pr h
    simp only [emitProbesFrom] at h
    rcases List.mem_append.mp h with h1 | h1
    · refine ⟨idx, ?_⟩
      rw [List.eq_of_mem_replicate h1]
      rfl
    · exact ih (idx + 1) pr h1

/-- Claim C3, counterexample: wordlist {80}, `retries = 2`, every send
failing: the emitter makes two attempts and both serialized probes carry the
same 32-bit sequence number 1000000001, because `randSeq` advances once per
port (line 215) before the retry loop, not once per attempt. The claimed
distinctness fails. -/
theorem C3_counterexample :
    (emitProbes 40000 2 0 (fun _ => 0) (fun _ _ => false) [80]).map Probe.seq32
      = [1000000001, 1000000001]
    ∧ ¬ ((emitProbes 40000 2 0 (fun _ => 0) (fun _ _ => false) [80]).map
          Probe.seq32).Nodup := by
  constructor <;> decide

/-- Claim C3, amended: for a wordlist of size 1 with `retries = r ≥ 1`, the
emission engine serializes and sends up to `r` probes for that port, and
every one of those probes carries the same sequence number, namely the
post-advance counter truncated to 32 bits. -/
theorem C3_amended_retries (rawPort retries r0 : Nat) (draws : Nat → Nat)
    (sendOk : Nat → Nat → Bool) (p : Nat) (hr : 1 ≤ retries) :
    (emitProbes rawPort retries r0 draws sendOk [p]).length ≤ retries
    ∧ ∀ pr ∈ emitProbes rawPort retries r0 draws sendOk [p],
        pr.seq32 = (initialSeq r0 + 1 + draws 0) % 4294967296 := by
  constructor
  · show (List.replicate (attemptsMade (sendOk 0) 0 retries)
        (⟨rawPort, p, (initialSeq r0 + 1 + draws 0) % 4294967296⟩ : Probe)
        ++ []).length ≤ retries
    rw [List.append_nil, List.length_replicate]
    exact attemptsMade_le _ retries 0
  · intro pr h
    have h1 : pr ∈ List.replicate (attemptsMade (sendOk 0) 0 retries)
        (⟨rawPort, p, (initialSeq r0 + 1 + draws 0) % 4294967296⟩ : Probe) := by
      simpa [emitProbes, emitProbesFrom] using h
    rw [List.eq_of_mem_replicate h1]

theorem C3_retries_witness :
    (emitProbes 40000 2 0 (fun _ => 0) (fun _ _ => false) [80]).length ≤ 2
    ∧ (⟨40000, 80, 1000000001⟩ : Probe).seq32
        = (initialSeq 0 + 1 + 0) % 4294967296 :=
  ⟨(C3_amended_retries 40000 2 0 (fun _ => 0) (fun _ _ => false) 80 (by decide)).1,
   (C3_amended_retries 40000 2 0 (fun _ => 0) (fun _ _ => false) 80 (by decide)).2
     ⟨40000, 80, 1000000001⟩ (by decide)⟩

/-- Claim C4, counterexample: seed draw 3294967294 gives
`randSeq = 4294967294`; with increments of 1 the first probe's 32-bit field
is 4294967295 and the second port's is `4294967296 % 2^32 = 0`. The header
values are not strictly increasing: `uint32(randSeq)` wraps, although the
underlying counter grows. -/
theorem C4_counterexample :
    (emitProbes 40000 1 3294967294 (fun _ => 0) (fun _ _ => true)
        [80, 443]).map Probe.seq32 = [4294967295, 0]
    ∧ ¬ List.Chain' (· < ·)
        ((emitProbes 40000 1 3294967294 (fun _ => 0) (fun _ _ => true)
          [80, 443]).map Probe.seq32) := by
  have h : (emitProbes 40000 1 3294967294 (fun _ => 0) (fun _ _ => true)
      [80, 443]).map Probe.seq32 = [4294967295, 0] := by decide
  refine ⟨h, ?_⟩
  rw [h]
  intro hc
  rw [List.chain'_cons] at hc
  exact absurd hc.1 (by omega)

/-- Claim C4, amended: the seed lies in [10^9, 10^10), the unbounded Go
`int` counter is strictly increasing across ports (each advance adds
1 + rand.Intn(5) ≥ 1), and every emitted probe's 32-bit sequence field is
the counter value after some advance reduced mod 2^32 — the 32-bit field
itself can wrap and is therefore not strictly increasing (and retries of a
port repeat its value). -/
theorem C4_amended_counter (r0 : Nat) (hr0 : r0 < 8999999999) (draws : Nat → Nat) :
    (1000000000 ≤ initialSeq r0 ∧ initialSeq r0 < 10000000000)
    ∧ (∀ i, counterAfter (initialSeq r0) draws i
          < counterAfter (initialSeq r0) draws (i + 1))
    ∧ ∀ (rawPort retries : Nat) (sendOk : Nat → Nat → Bool)
        (wordlist : List Nat) (pr : Probe),
        pr ∈ emitProbes rawPort retries r0 draws sendOk wordlist →
        ∃ i, pr.seq32 = counterAfter (initialSeq r0) draws (i + 1) % 4294967296 := by
  refine ⟨⟨?_, ?_⟩, ?_, ?_⟩
  · simp [initialSeq]
  · simp only [initialSeq]; omega
  · intro i
    have h : counterAfter (initialSeq r0) draws (i + 1)
        = counterAfter (initialSeq r0) draws i + 1 + draws i := rfl
    omega
  · intro rawPort retries sendOk wordlist pr h
    exact seq32_emitProbesFrom rawPort retries (initialSeq r0) draws sendOk
      wordlist 0 pr h

theorem C4_counter_witness :
    (1000000000 ≤ initialSeq 0 ∧ initialSeq 0 < 10000000000)
    ∧ counterAfter (initialSeq 0) (fun _ => 0) 0
        < counterAfter (initialSeq 0) (fun _ => 0) 1 :=
  ⟨(C4_amended_counter 0 (by decide) (fun _ => 0)).1,
   (C4_amended_counter 0 (by decide) (fun _ => 0)).2.1 0⟩

/-- Claim C6: the single ephemeral port `rawPort` acquired at `scan.go`
line 93 is carried as the TCP source port by every emitted probe (the
template's `SrcPort` is set once at line 147 and never mutated), the
installed BPF filter string is exactly
`tcp and port <rawPort> and ip host <host>` (line 103), and the capture-side
port check accepts a packet (emits any event) only when its TCP destination
port equals that same `rawPort` (line 196). -/
theorem C6_single_source_port (rawPort retries r0 : Nat) (draws : Nat → Nat)
    (sendOk : Nat → Nat → Bool) (wordlist : List Nat) (host : String) :
    (∀ pr ∈ emitProbes rawPort retries r0 draws sendOk wordlist,
        pr.srcPort = rawPort)
    ∧ bpfFilterStr rawPort host
        = "tcp and port " ++ toString rawPort ++ " and ip host " ++ host
    ∧ ∀ (ipFlow : Nat × Nat) (pk : CapturedPacket),
        processPacket rawPort ipFlow pk ≠ [] → pk.tcpDst = rawPort := by
  refine ⟨?_, rfl, ?_⟩
  · intro pr h
    exact srcPort_emitProbesFrom rawPort retries draws sendOk wordlist _ 0 pr h
  · intro ipFlow pk h
    exact processLayers_ne_nil rawPort ipFlow pk pk.decoded h

theorem C6_source_port_witness :
    (⟨40000, 80, 1000000001⟩ : Probe).srcPort = 40000
    ∧ synAckGood.tcpDst = 40000 :=
  ⟨(C6_single_source_port 40000 1 0 (fun _ => 0) (fun _ _ => true) [80]
      "10.0.0.5").1 ⟨40000, 80, 1000000001⟩ (by decide),
   (C6_single_source_port 40000 1 0 (fun _ => 0) (fun _ _ => true) [80]
      "10.0.0.5").2.2 (1, 2) synAckGood (by decide)⟩

/-- What the setup section of `Scan` (`scan.go` lines 74-115) leaves behind
on each return path: whether the inactive handle and the activated handle
were ever acquired, whether `inactive.CleanUp()` / `handle.Close()` ran
before returning, whether the function returned an error, and whether a
result set was produced. -/
structure SetupTrace where
  inactiveAcquired : Bool
  inactiveCleaned : Bool
  handleAcquired : Bool
  handleClosed : Bool
  errored : Bool
  producedResults : Bool
deriving DecidableEq

/-- The setup sequence of `Scan` (`scan.go` lines 74-115), with one success
oracle per fallible step in source order: `pcap.NewInactiveHandle`,
`inactive.SetTimeout`, `inactive.Activate`, `freeport.GetFreePort`,
`handle.SetBPFFilter`, `net.ListenPacket`. Each failing branch records
exactly the cleanup calls the source makes before `return nil, err`; on the
all-success path both handles stay open for the scan and results are
produced. -/
def scanSetup (inactiveOk timeoutOk activateOk freePortOk bpfOk sockOk : Bool) :
    SetupTrace :=
  if !inactiveOk then ⟨false, false, false, false, true, false⟩
  else if !timeoutOk then ⟨true, true, false, false, true, false⟩
  else if !activateOk then ⟨true, true, false, false, true, false⟩
  else if !freePortOk then ⟨true, true, true, true, true, false⟩
  else if !bpfOk then ⟨true, true, true, true, true, false⟩
  else if !sockOk then ⟨true, true, true, true, true, false⟩
  else ⟨true, false, true, false, false, true⟩

/-- Claim C7: whenever any setup step fails, `Scan` returns an error, every
resource acquired before the failing step has been released (the inactive
handle cleaned up, the activated handle closed), and no result set is
produced. -/
theorem C7_setup_failure_cleanup :
    ∀ a b c d e f : Bool,
      ¬(a = true ∧ b = true ∧ c = true ∧ d = true ∧ e = true ∧ f = true) →
        (scanSetup a b c d e f).errored = true
        ∧ ((scanSetup a b c d e f).inactiveAcquired = true →
            (scanSetup a b c d e f).inactiveCleaned = true)
        ∧ ((scanSetup a b c d e f).handleAcquired = true →
            (scanSetup a b c d e f).handleClosed = true)
        ∧ (scanSetup a b c d e f).producedResults = false := by decide

theorem C7_cleanup_witness :
    (scanSetup true true true true false true).errored = true
    ∧ ((scanSetup true true true true false true).inactiveAcquired = true →
        (scanSetup true true true true false true).inactiveCleaned = true)
    ∧ ((scanSetup true true true true false true).handleAcquired = true →
        (scanSetup true true true true false true).handleClosed = true)
    ∧ (scanSetup true true true true false true).producedResults = false :=
  C7_setup_failure_cleanup true true true true false true (by decide)

/-- How `Scan` closes the capture handle and the raw socket after the
wordlist is exhausted (`scan.go` lines 234-243). -/
inductive CloseMode
  | graceTimer : Nat → CloseMode
  | immediate : CloseMode
deriving DecidableEq

/-- `scan.go` lines 234-243: a positive `s.timeout` arms a fixed
`time.AfterFunc(10*time.Second, ...)` that closes handle and socket; a zero
(or non-positive) timeout closes them immediately. The magnitude of the
timeout is never read. `timeout` is a Go `time.Duration`, an `int64` of
nanoseconds. -/
def closeBehavior (timeout : Int) : CloseMode :=
  if 0 < timeout then CloseMode.graceTimer 10 else CloseMode.immediate

/-- Claim C8: for any two positive timeouts the post-emission close
behavior is identical — a fixed 10-second timer — and with timeout zero the
handles are closed immediately; the magnitude of a positive timeout is
unobservable (no other part of `Scan` reads `s.timeout`). -/
theorem C8_timeout_magnitude_irrelevant (t1 t2 : Int) (h1 : 0 < t1) (h2 : 0 < t2) :
    closeBehavior t1 = closeBehavior t2
    ∧ closeBehavior t1 = CloseMode.graceTimer 10
    ∧ closeBehavior 0 = CloseMode.immediate := by
  simp [closeBehavior, h1, h2]

theorem C8_timeout_witness :
    closeBehavior 1 = closeBehavior 5
    ∧ closeBehavior 1 = CloseMode.graceTimer 10
    ∧ closeBehavior 0 = CloseMode.immediate :=
  C8_timeout_magnitude_irrelevant 1 5 (by decide) (by decide)

/-- The state of the process-global `math/rand` source, abstracted to the
value it was last seeded with. -/
structure RngState where
  seedVal : Int
deriving DecidableEq

/-- `rand.Seed(n)`: resets the global default source to a deterministic
state derived from `n` (modelled as storing `n`); the previous state is
discarded. -/
def randSeedOp (n : Int) (_g : RngState) : RngState := ⟨n⟩

/-- The effect of `NewScanner` on the global PRNG (`scan.go` line 34):
`rand.Seed(time.Now().UnixNano())`, where `now` is the current clock
reading. -/
def newScannerRng (now : Int) (g : RngState) : RngState := randSeedOp now g

/-- Claim C9, counterexample: constructing a scanner at clock reading 1,
with the global PRNG in state 0, leaves the global PRNG in state 1 — the
construction does mutate the process-global PRNG. -/
theorem C9_counterexample : newScannerRng 1 ⟨0⟩ ≠ ⟨0⟩ := by decide

/-- Claim C9, amended: `NewScanner` re-seeds the process-global PRNG with
the current time at every construction (and `Scan`'s `rand.Intn` calls draw
from that same global source, not a scan-local one), so whenever the clock
reading differs from the current state, constructing a scanner changes the
random state observed by every other user of the global PRNG. -/
theorem C9_amended_global_seed (now : Int) (g : RngState) (h : g.seedVal ≠ now) :
    newScannerRng now g = ⟨now⟩ ∧ newScannerRng now g ≠ g := by
  refine ⟨rfl, ?_⟩
  intro hEq
  apply h
  have h2 : (⟨now⟩ : RngState) = g := hEq
  rw [← h2]

theorem C9_seed_witness :
    newScannerRng 1 ⟨0⟩ = ⟨1⟩ ∧ newScannerRng 1 ⟨0⟩ ≠ ⟨0⟩ :=
  C9_amended_global_seed 1 ⟨0⟩ (by decide)

/-- `strings.HasPrefix(s, p)` (`scan.go` line 288). -/
def strStartsWith (s p : String) : Bool := p.data.isPrefixOf s.data

/-- `net.IP.String()` as used for the source address (`scan.go` line 272):
a nil IP prints as `<nil>`. -/
def ipDisplay : Option String → String
  | some s => s
  | none => "<nil>"

/-- `getSourceIP` (`scan.go` lines 255-268). `resolveErr` is the error of
`net.ResolveUDPAddr`, `dialErr` the error of `net.DialUDP`,
`localIsUDPAddr` whether the type assertion on `con.LocalAddr()` succeeds,
`localIP` the kernel-chosen local address. The `err` declared in the
`if con, err := net.DialUDP(...)` initializer shadows the outer `err`
(which is nil after a successful resolve), so the final `return nil, err`
returns the outer nil error even when the dial failed. -/
def getSourceIP (resolveErr dialErr : Option String) (localIsUDPAddr : Bool)
    (localIP : String) : Option String × Option String :=
  match resolveErr with
  | some e => (none, some e)
  | none =>
      match dialErr with
      | none => if localIsUDPAddr then (some localIP, none) else (none, none)
      | some _ => (none, none)

/-- The interface loop of `getInterfaceFromIP` (`scan.go` lines 279-294):
each entry is an interface name with the result of
`net.InterfaceByName(name)` (whose error is returned as-is); the error of
`byNameInterface.Addrs()` is ignored by the source. Returns the first
interface one of whose addresses starts with `<address>/`, else the
`no interface found` error. -/
def findInterface (address : String) :
    List (String × Except String (List String)) → Except String String
  | [] => Except.error ("no interface found for ip " ++ address)
  | (_, Except.error e) :: _ => Except.error e
  | (name, Except.ok addrs) :: rest =>
      match addrs.find? (fun v => strStartsWith v (address ++ "/")) with
      | some _ => Except.ok name
      | none => findInterface address rest

/-- The source-IP and interface discovery of `NewScanner`
(`scan.go` lines 49-58): propagate a non-nil error from `getSourceIP`,
then a `net.Interfaces()` error, then run the interface loop on the string
form of the (possibly nil) source IP. -/
def newScannerLookup (resolveErr dialErr : Option String) (localIsUDPAddr : Bool)
    (localIP : String) (interfacesErr : Option String)
    (ifaces : List (String × Except String (List String))) : Except String String :=
  match getSourceIP resolveErr dialErr localIsUDPAddr localIP with
  | (_, some e) => Except.error e
  | (srcIP, none) =>
      match interfacesErr with
      | some e => Except.error e
      | none => findInterface (ipDisplay srcIP) ifaces

theorem findInterface_all_miss (address : String) :
    ∀ ifaces : List (String × Except String (List String)),
      (∀ p ∈ ifaces, ∃ addrs, p.2 = Except.ok addrs
          ∧ ∀ a ∈ addrs, strStartsWith a (address ++ "/") = false) →
      findInterface address ifaces
        = Except.error ("no interface found for ip " ++ address) := by
  intro ifaces
  induction ifaces with
  | nil => intro _; rfl
  | cons p rest ih =>
    intro h
    obtain ⟨addrs, hres, hall⟩ := h p (List.mem_cons_self p rest)
    rcases p with ⟨name, res⟩
    simp only at hres
    subst hres
    have hfind : addrs.find? (fun v => strStartsWith v (address ++ "/")) = none := by
      rw [List.find?_eq_none]
      intro a ha
      simp [hall a ha]
    simp only [findInterface, hfind]
    exact ih fun q hq => h q (List.mem_cons_of_mem _ hq)

/-- Claim C10: when route resolution's UDP dial fails, `getSourceIP`
returns a nil IP together with a nil error (the dial error is shadowed), so
`NewScanner` proceeds with a nil source IP; as long as no interface address
starts with `<nil>/` (real addresses are `ip/mask` strings), the failure
surfaces only later as the `no interface found for ip <nil>` error of the
interface lookup, not as a route-resolution error. -/
theorem C10_dial_error_shadowed (e : String) (b : Bool) (ip : String)
    (ifaces : List (String × Except String (List String)))
    (hok : ∀ p ∈ ifaces, ∃ addrs, p.2 = Except.ok addrs
        ∧ ∀ a ∈ addrs, strStartsWith a (ipDisplay none ++ "/") = false) :
    getSourceIP none (some e) b ip = (none, none)
    ∧ newScannerLookup none (some e) b ip none ifaces
        = Except.error ("no interface found for ip " ++ ipDisplay none) := by
  constructor
  · cases b <;> rfl
  · show findInterface (ipDisplay none) ifaces = _
    exact findInterface_all_miss (ipDisplay none) ifaces hok

theorem C10_shadowed_witness :
    getSourceIP none (some "network is unreachable") true "192.168.0.2"
      = (none, none)
    ∧ newScannerLookup none (some "network is unreachable") true "192.168.0.2"
        none [("eth0", Except.ok ["192.168.0.2/24"])]
      = Except.error ("no interface found for ip " ++ ipDisplay none) :=
  C10_dial_error_shadowed "network is unreachable" true "192.168.0.2"
    [("eth0", Except.ok ["192.168.0.2/24"])]
    (by
      intro p hp
      rw [List.mem_singleton] at hp
      subst hp
      exact ⟨["192.168.0.2/24"], rfl, by decide⟩)
